import Mathlib

/-!
Shallow embedding of the plant-monitoring component
(`custom_components/plant/plant.py`), centred on the state-evaluation
routine `PlantDevice.update` and the completeness latch
(`plant_complete`, `add_dli`, `extra_state_attributes`, `websocket_info`).

Modelling conventions:
* Sensor values observed through `hass.states.get(...).state` are strings
  in the source; `update` skips a value that is `None`, `"unknown"` or
  `"unavailable"` and otherwise applies `float(...)`, which either yields
  a number or raises `ValueError`.  `Reading` abstracts exactly these three
  outcomes (`missing` / `val v` / `malformed`); numbers are rationals.
* Threshold entities' states (`self.min_moisture.state`, ...) are passed
  through `float(...)` by `update`; the evaluation model takes their parsed
  numeric values (`minT`, `maxT`) as part of the input snapshot.
* An uncaught Python exception inside `update` is modelled by
  `Except.error sp`, where `sp` is the device state at the moment of the
  raise (the mutations already performed persist, `_attr_state` is never
  assigned because the assignment is the last statement of `update`).
-/

namespace Plant

/-- Per-metric status values `STATE_LOW` / `STATE_HIGH` / `STATE_OK`
written by `update` into the `*_status` fields. -/
inductive Status
  | ok
  | low
  | high
deriving DecidableEq, Repr

/-- Aggregate state values `STATE_OK` / `STATE_PROBLEM` / `STATE_UNKNOWN`
assigned to `self._attr_state` at the end of `update`. -/
inductive AggState
  | ok
  | problem
  | unknown
deriving DecidableEq, Repr

/-- Outcome of observing one sensor value at evaluation time:
`missing` covers `sensor is None` as well as a state of `None`,
`"unknown"` or `"unavailable"`; `val v` is a state that `float(...)`
parses to `v`; `malformed` is a present state on which `float(...)`
raises `ValueError`. -/
inductive Reading
  | missing
  | malformed
  | val (v : ℚ)
deriving DecidableEq, Repr

/-- Snapshot of one general metric consumed by `update`: the observed
reading, the parsed states of its min/max threshold entities, and the
per-metric trigger flag (`self.<metric>_trigger`, default `True`). -/
structure MetricInput where
  reading : Reading
  minT : ℚ
  maxT : ℚ
  trigger : Bool
deriving DecidableEq, Repr

/-- Full input snapshot of one `update` pass.  `dliKnown` is the guard
`self.dli is not None and self.dli.native_value != STATE_UNKNOWN and
self.dli.native_value != STATE_UNAVAILABLE and self.dli.state is not None`;
`dliLastPeriod` is the observation of
`self.dli.extra_state_attributes["last_period"]` (a missing key raises,
modelled like a malformed value). -/
structure Inputs where
  moisture : MetricInput
  conductivity : MetricInput
  temperature : MetricInput
  humidity : MetricInput
  illuminance : MetricInput
  dliKnown : Bool
  dliLastPeriod : Reading
  dliMin : ℚ
  dliMax : ℚ
  dliTrigger : Bool
deriving DecidableEq, Repr

/-- The mutable evaluation fields of `PlantDevice`: the six `*_status`
fields (initialised to `None` in `__init__`) and `_attr_state`. -/
structure PlantState where
  moisture_status : Option Status
  conductivity_status : Option Status
  temperature_status : Option Status
  humidity_status : Option Status
  illuminance_status : Option Status
  dli_status : Option Status
  attr_state : Option AggState
deriving DecidableEq, Repr

/-- The evaluation fields right after `PlantDevice.__init__`. -/
def initState : PlantState :=
  { moisture_status := none
    conductivity_status := none
    temperature_status := none
    humidity_status := none
    illuminance_status := none
    dli_status := none
    attr_state := none }

/-- One general-metric block of `update` (moisture, conductivity,
temperature, humidity).  Returns `none` when `float(...)` raises on the
present value, otherwise `(new status field, breach-with-trigger flag,
known-reading contribution)`.  A missing reading leaves the status field
untouched and contributes nothing. -/
def genStep (m : MetricInput) (cur : Option Status) :
    Option (Option Status × Bool × Bool) :=
  match m.reading with
  | .missing => some (cur, false, false)
  | .malformed => none
  | .val v =>
    if v < m.minT then some (some .low, m.trigger, true)
    else if m.maxT < v then some (some .high, m.trigger, true)
    else some (some .ok, false, true)

/-- The illuminance block of `update`: only the max threshold is checked;
the min side is intentionally never evaluated. -/
def illStep (m : MetricInput) (cur : Option Status) :
    Option (Option Status × Bool × Bool) :=
  match m.reading with
  | .missing => some (cur, false, false)
  | .malformed => none
  | .val v =>
    if m.maxT < v then some (some .high, m.trigger, true)
    else some (some .ok, false, true)

/-- The DLI block of `update`.  When the guard `dliKnown` holds the block
runs (`known_state = True` precedes the comparisons); evaluating
`float(last_period)` then raises unless the attribute is a parseable
number.  The comparisons follow the source: `low` when
`last_period > 0 and last_period < min_dli`, `high` when
`last_period > 0 and last_period > max_dli`, else `ok`. -/
def dliStep (i : Inputs) (cur : Option Status) :
    Option (Option Status × Bool × Bool) :=
  if i.dliKnown then
    match i.dliLastPeriod with
    | .val lp =>
      if 0 < lp ∧ lp < i.dliMin then some (some .low, i.dliTrigger, true)
      else if 0 < lp ∧ i.dliMax < lp then some (some .high, i.dliTrigger, true)
      else some (some .ok, false, true)
    | _ => none
  else some (cur, false, false)

/-- `PlantDevice.update`: processes moisture, conductivity, temperature,
humidity, illuminance and DLI in the source's order, threading
`new_state` (initially `STATE_OK`, set to `STATE_PROBLEM` on a
trigger-enabled breach) and `known_state` (initially `False`); overrides
`new_state` with `STATE_UNKNOWN` when no metric contributed, and assigns
`self._attr_state` last.  An exception aborts the pass with the mutations
made so far. -/
def update (i : Inputs) (s : PlantState) : Except PlantState PlantState :=
  match genStep i.moisture s.moisture_status with
  | none => .error s
  | some (stM, pM, cM) =>
  let s1 : PlantState := { s with moisture_status := stM }
  let ns1 : AggState := if pM then .problem else .ok
  let ks1 : Bool := false || cM
  match genStep i.conductivity s1.conductivity_status with
  | none => .error s1
  | some (stC, pC, cC) =>
  let s2 : PlantState := { s1 with conductivity_status := stC }
  let ns2 : AggState := if pC then .problem else ns1
  let ks2 : Bool := ks1 || cC
  match genStep i.temperature s2.temperature_status with
  | none => .error s2
  | some (stT, pT, cT) =>
  let s3 : PlantState := { s2 with temperature_status := stT }
  let ns3 : AggState := if pT then .problem else ns2
  let ks3 : Bool := ks2 || cT
  match genStep i.humidity s3.humidity_status with
  | none => .error s3
  | some (stH, pH, cH) =>
  let s4 : PlantState := { s3 with humidity_status := stH }
  let ns4 : AggState := if pH then .problem else ns3
  let ks4 : Bool := ks3 || cH
  match illStep i.illuminance s4.illuminance_status with
  | none => .error s4
  | some (stI, pI, cI) =>
  let s5 : PlantState := { s4 with illuminance_status := stI }
  let ns5 : AggState := if pI then .problem else ns4
  let ks5 : Bool := ks4 || cI
  match dliStep i s5.dli_status with
  | none => .error s5
  | some (stD, pD, cD) =>
  let s6 : PlantState := { s5 with dli_status := stD }
  let ns6 : AggState := if pD then .problem else ns5
  let ks6 : Bool := ks5 || cD
  .ok { s6 with attr_state := some (if ks6 then ns6 else .unknown) }

/-! ## Closed forms of one evaluation pass -/

/-- Whether `float(...)` succeeds on this reading (a missing reading is
skipped before `float` is reached, so only `malformed` fails). -/
def readingOk : Reading → Bool
  | .malformed => false
  | _ => true

/-- Whether the DLI block completes without raising: either the guard is
false, or `last_period` is a parseable number. -/
def dliOk (i : Inputs) : Bool :=
  !i.dliKnown ||
    (match i.dliLastPeriod with
     | .val _ => true
     | _ => false)

/-- Whether an `update` pass on this snapshot runs to completion without
an exception. -/
def updateSucceeds (i : Inputs) : Bool :=
  readingOk i.moisture.reading && readingOk i.conductivity.reading &&
  readingOk i.temperature.reading && readingOk i.humidity.reading &&
  readingOk i.illuminance.reading && dliOk i

/-- Closed form of the status a general-metric block leaves in its
`*_status` field. -/
def statusOfGen (m : MetricInput) (cur : Option Status) : Option Status :=
  match m.reading with
  | .val v =>
    if v < m.minT then some .low
    else if m.maxT < v then some .high
    else some .ok
  | _ => cur

/-- Closed form of a general-metric block's trigger-enabled-breach flag
(the block sets `new_state = STATE_PROBLEM` exactly when this is true). -/
def problemOf (m : MetricInput) : Bool :=
  match m.reading with
  | .val v =>
    if v < m.minT then m.trigger
    else if m.maxT < v then m.trigger
    else false
  | _ => false

/-- Closed form of a general-metric block's `known_state` contribution. -/
def contribOf (m : MetricInput) : Bool :=
  match m.reading with
  | .val _ => true
  | _ => false

/-- Closed form of the illuminance block's status. -/
def illStatusOf (m : MetricInput) (cur : Option Status) : Option Status :=
  match m.reading with
  | .val v => if m.maxT < v then some .high else some .ok
  | _ => cur

/-- Closed form of the illuminance block's trigger-enabled-breach flag. -/
def illProblemOf (m : MetricInput) : Bool :=
  match m.reading with
  | .val v => if m.maxT < v then m.trigger else false
  | _ => false

/-- Closed form of the DLI block's status. -/
def dliStatusOf (i : Inputs) (cur : Option Status) : Option Status :=
  if i.dliKnown then
    match i.dliLastPeriod with
    | .val lp =>
      if 0 < lp ∧ lp < i.dliMin then some .low
      else if 0 < lp ∧ i.dliMax < lp then some .high
      else some .ok
    | _ => cur
  else cur

/-- Closed form of the DLI block's trigger-enabled-breach flag. -/
def dliProblemOf (i : Inputs) : Bool :=
  if i.dliKnown then
    match i.dliLastPeriod with
    | .val lp =>
      if 0 < lp ∧ lp < i.dliMin then i.dliTrigger
      else if 0 < lp ∧ i.dliMax < lp then i.dliTrigger
      else false
    | _ => false
  else false

/-- Closed form of the DLI block's `known_state` contribution: the guard
alone, because `known_state = True` precedes the `last_period`
comparisons in the block. -/
def dliContribOf (i : Inputs) : Bool :=
  i.dliKnown

/-- Final value of `known_state` after a completed pass. -/
def knownOf (i : Inputs) : Bool :=
  false || contribOf i.moisture || contribOf i.conductivity ||
    contribOf i.temperature || contribOf i.humidity ||
    contribOf i.illuminance || dliContribOf i

/-- Final value of `new_state` before the `known_state` override: the
last block to flag a trigger-enabled breach decided it, and absent any
flag it stays `STATE_OK`. -/
def newStateOf (i : Inputs) : AggState :=
  if dliProblemOf i then .problem
  else if illProblemOf i.illuminance then .problem
  else if problemOf i.humidity then .problem
  else if problemOf i.temperature then .problem
  else if problemOf i.conductivity then .problem
  else if problemOf i.moisture then .problem
  else .ok

/-- Whether some trigger-enabled breach was flagged during this pass. -/
def probAnyOf (i : Inputs) : Bool :=
  problemOf i.moisture || problemOf i.conductivity ||
    problemOf i.temperature || problemOf i.humidity ||
    illProblemOf i.illuminance || dliProblemOf i

/-- Aggregate state assigned to `_attr_state` by a completed pass. -/
def aggOf (i : Inputs) : AggState :=
  if knownOf i then newStateOf i else .unknown

/-- Device state after a completed `update` pass on snapshot `i` from
prior state `s`. -/
def finalState (i : Inputs) (s : PlantState) : PlantState :=
  { moisture_status := statusOfGen i.moisture s.moisture_status
    conductivity_status := statusOfGen i.conductivity s.conductivity_status
    temperature_status := statusOfGen i.temperature s.temperature_status
    humidity_status := statusOfGen i.humidity s.humidity_status
    illuminance_status := illStatusOf i.illuminance s.illuminance_status
    dli_status := dliStatusOf i s.dli_status
    attr_state := some (aggOf i) }

/-- Per-field someness preservation: a status field that has ever been
assigned never reverts to `None`. -/
def statusesPreserved (s r : PlantState) : Prop :=
  (s.moisture_status ≠ none → r.moisture_status ≠ none) ∧
  (s.conductivity_status ≠ none → r.conductivity_status ≠ none) ∧
  (s.temperature_status ≠ none → r.temperature_status ≠ none) ∧
  (s.humidity_status ≠ none → r.humidity_status ≠ none) ∧
  (s.illuminance_status ≠ none → r.illuminance_status ≠ none) ∧
  (s.dli_status ≠ none → r.dli_status ≠ none)

/-- Claim-facing classification predicate for a general metric: what the
spec asserts the status field holds after a pass that saw value `v`. -/
def classifiesGen (m : MetricInput) (st : Option Status) : Prop :=
  ∀ v, m.reading = .val v →
    (v < m.minT → st = some .low) ∧
    (m.maxT < v → st = some .high) ∧
    (m.minT ≤ v → v ≤ m.maxT → st = some .ok)

/-! ## Device layer: completeness latch, mutation operations, query surfaces -/

/-- The twelve threshold-entity slots (`max_moisture` ... `min_dli`),
each `None` after `__init__` until `add_thresholds` stores an entity; a
stored threshold entity is represented by its parsed numeric state. -/
structure Thresholds where
  maxMoisture : Option ℚ
  minMoisture : Option ℚ
  maxTemperature : Option ℚ
  minTemperature : Option ℚ
  maxConductivity : Option ℚ
  minConductivity : Option ℚ
  maxIlluminance : Option ℚ
  minIlluminance : Option ℚ
  maxHumidity : Option ℚ
  minHumidity : Option ℚ
  maxDli : Option ℚ
  minDli : Option ℚ
deriving DecidableEq, Repr

/-- The five meter slots (`sensor_moisture` ... `sensor_humidity`),
`None` until `add_sensors`; a stored sensor entity is represented by its
entity id. -/
structure Sensors where
  moisture : Option String
  temperature : Option String
  conductivity : Option String
  illuminance : Option String
  humidity : Option String
deriving DecidableEq, Repr

/-- The `PlantDevice` fields that the claims touch: the `plant_complete`
latch, the attachment slots written by the `add_*` methods, the
presentation fields, and the evaluation state.  Registry/config plumbing
(`_config`, `_device_id`, `entity_id`, ...) is host wiring outside the
evaluation logic. -/
structure Device where
  plantComplete : Bool
  species : Option String
  picture : Option String
  thresholds : Thresholds
  sensors : Sensors
  dli : Option String
  hasCalculations : Bool
  st : PlantState
deriving DecidableEq, Repr

def initThresholds : Thresholds :=
  ⟨none, none, none, none, none, none, none, none, none, none, none, none⟩

def initSensors : Sensors := ⟨none, none, none, none, none⟩

/-- Device right after `PlantDevice.__init__`: `plant_complete = False`,
every slot `None`, every status `None` (species/picture come from the
config entry; their contents are irrelevant to the claims, so they start
`None` here). -/
def initDevice : Device :=
  { plantComplete := false
    species := none
    picture := none
    thresholds := initThresholds
    sensors := initSensors
    dli := none
    hasCalculations := false
    st := initState }

/-- The mutating operations on a live `PlantDevice`: `add_image`,
`add_species`, `add_thresholds`, `add_sensors`, `add_dli`,
`add_calculations` and `update`.  `runUpdate` carries the input snapshot
the pass reads from the host; when the pass raises, the mutations made
before the raise persist on the device. -/
inductive Op
  | addImage (url : Option String)
  | addSpecies (sp : Option String)
  | addThresholds (t : Thresholds)
  | addSensors (sn : Sensors)
  | addDli (e : Option String)
  | addCalculations
  | runUpdate (i : Inputs)

def applyOp : Op → Device → Device
  | .addImage u, d => { d with picture := u }
  | .addSpecies sp, d => { d with species := sp }
  | .addThresholds t, d => { d with thresholds := t }
  | .addSensors sn, d => { d with sensors := sn }
  | .addDli e, d => { d with dli := e, plantComplete := true }
  | .addCalculations, d => { d with hasCalculations := true }
  | .runUpdate i, d =>
    { d with st :=
        match update i d.st with
        | .ok s' => s'
        | .error sp => sp }

/-- Payload of `extra_state_attributes` once the device is complete: the
display species, the six status fields, and the original species (both
species entries are presentation data). -/
structure Attributes where
  species : Option String
  moisture : Option Status
  temperature : Option Status
  conductivity : Option Status
  illuminance : Option Status
  humidity : Option Status
  dli : Option Status
deriving DecidableEq, Repr

/-- `PlantDevice.extra_state_attributes`: an empty dict (`none`) while
`plant_complete` is false, otherwise the status snapshot. -/
def extra_state_attributes (d : Device) : Option Attributes :=
  if d.plantComplete then
    some { species := d.species
           moisture := d.st.moisture_status
           temperature := d.st.temperature_status
           conductivity := d.st.conductivity_status
           illuminance := d.st.illuminance_status
           humidity := d.st.humidity_status
           dli := d.st.dli_status }
  else none

/-- Dereferencing an attribute of a slot that is still `None` raises
`AttributeError`; modelled as `Except.error`. -/
def req {α : Type} : Option α → Except Unit α
  | some a => .ok a
  | none => .error ()

/-- Payload of `websocket_info` once every slot is attached: the min/max
threshold states per metric (the current values, icons and units in the
source's response are presentation data read from the same entities; what
matters here is that building the response dereferences each of them). -/
structure WsResp where
  maxTemperature : ℚ
  minTemperature : ℚ
  maxIlluminance : ℚ
  minIlluminance : ℚ
  maxMoisture : ℚ
  minMoisture : ℚ
  maxConductivity : ℚ
  minConductivity : ℚ
  maxHumidity : ℚ
  minHumidity : ℚ
  maxDli : ℚ
  minDli : ℚ
deriving DecidableEq, Repr

/-- `PlantDevice.websocket_info`: an empty dict (`ok none`) while
`plant_complete` is false; afterwards it dereferences every threshold,
meter and DLI slot in the source's order, raising on any still `None`. -/
def websocket_info (d : Device) : Except Unit (Option WsResp) :=
  if d.plantComplete then do
    let maxT ← req d.thresholds.maxTemperature
    let minT ← req d.thresholds.minTemperature
    let _ ← req d.sensors.temperature
    let maxI ← req d.thresholds.maxIlluminance
    let minI ← req d.thresholds.minIlluminance
    let _ ← req d.sensors.illuminance
    let maxM ← req d.thresholds.maxMoisture
    let minM ← req d.thresholds.minMoisture
    let _ ← req d.sensors.moisture
    let maxC ← req d.thresholds.maxConductivity
    let minC ← req d.thresholds.minConductivity
    let _ ← req d.sensors.conductivity
    let maxH ← req d.thresholds.maxHumidity
    let minH ← req d.thresholds.minHumidity
    let _ ← req d.sensors.humidity
    let maxD ← req d.thresholds.maxDli
    let minD ← req d.thresholds.minDli
    let _ ← req d.dli
    return some ⟨maxT, minT, maxI, minI, maxM, minM, maxC, minC, maxH,
      minH, maxD, minD⟩
  else .ok none

/-! ## Concrete instances used by counterexamples and witnesses -/

/-- A metric slot with no usable reading. -/
def absentIn : MetricInput := ⟨.missing, 0, 0, true⟩

/-- Snapshot for the C1 counterexample: moisture absent (status `low`
retained from an earlier pass, trigger enabled), temperature `25` within
`[10, 30]`, everything else absent. -/
def iC1 : Inputs :=
  { moisture := ⟨.missing, 20, 60, true⟩
    conductivity := absentIn
    temperature := ⟨.val 25, 10, 30, true⟩
    humidity := absentIn
    illuminance := absentIn
    dliKnown := false
    dliLastPeriod := .missing
    dliMin := 0
    dliMax := 0
    dliTrigger := true }

/-- Prior state for the C1 counterexample: an earlier pass left
`moisture_status = low` and published `problem`. -/
def sC1 : PlantState :=
  { initState with moisture_status := some .low, attr_state := some .problem }

/-- Snapshot for the C2 counterexample: DLI known with
`last_period = 0`, `min_dli = 2`, `max_dli = 30`, every other metric
absent. -/
def iC2 : Inputs :=
  { moisture := absentIn
    conductivity := absentIn
    temperature := absentIn
    humidity := absentIn
    illuminance := absentIn
    dliKnown := true
    dliLastPeriod := .val 0
    dliMin := 2
    dliMax := 30
    dliTrigger := true }

/-- Snapshot for the C8 counterexample: moisture `15` breaching
`min = 20` (so its status is rewritten first), then a conductivity value
`float(...)` cannot parse. -/
def iC8 : Inputs :=
  { moisture := ⟨.val 15, 20, 60, true⟩
    conductivity := ⟨.malformed, 0, 100, true⟩
    temperature := absentIn
    humidity := absentIn
    illuminance := absentIn
    dliKnown := false
    dliLastPeriod := .missing
    dliMin := 0
    dliMax := 0
    dliTrigger := true }

/-- Prior state for the C8 counterexample: earlier passes had published
`ok` everywhere. -/
def sC8 : PlantState :=
  { initState with moisture_status := some .ok, attr_state := some .ok }

/-- Device state reached by the C8 counterexample's failed pass. -/
def spC8 : PlantState := { sC8 with moisture_status := some .low }

/-- Witness snapshot with a single known in-range general reading. -/
def iW3 : Inputs :=
  { moisture := ⟨.val 30, 20, 60, true⟩
    conductivity := absentIn
    temperature := absentIn
    humidity := absentIn
    illuminance := absentIn
    dliKnown := false
    dliLastPeriod := .missing
    dliMin := 0
    dliMax := 0
    dliTrigger := true }

/-- Witness snapshot with a known illuminance reading above its max. -/
def iW4 : Inputs :=
  { moisture := absentIn
    conductivity := absentIn
    temperature := absentIn
    humidity := absentIn
    illuminance := ⟨.val 50000, 0, 40000, true⟩
    dliKnown := false
    dliLastPeriod := .missing
    dliMin := 0
    dliMax := 0
    dliTrigger := true }

/-- Witness snapshot for C6 / scenario B: moisture `15` breaching
`min = 20` with its trigger disabled, everything else absent. -/
def iW6 : Inputs :=
  { moisture := ⟨.val 15, 20, 60, false⟩
    conductivity := absentIn
    temperature := absentIn
    humidity := absentIn
    illuminance := absentIn
    dliKnown := false
    dliLastPeriod := .missing
    dliMin := 0
    dliMax := 0
    dliTrigger := true }

/-- Witness snapshot with every metric absent. -/
def iW5 : Inputs :=
  { moisture := absentIn
    conductivity := absentIn
    temperature := absentIn
    humidity := absentIn
    illuminance := absentIn
    dliKnown := false
    dliLastPeriod := .missing
    dliMin := 0
    dliMax := 0
    dliTrigger := true }

/-- Device for the C7 counterexample: fresh device on which only
`add_dli` has run. -/
def dC7 : Device := applyOp (.addDli (some "sensor.plant_dli")) initDevice

/-! ## Step lemmas -/

theorem genStep_eq (m : MetricInput) (cur : Option Status)
    (h : readingOk m.reading = true) :
    genStep m cur = some (statusOfGen m cur, problemOf m, contribOf m) := by
  cases hr : m.reading <;>
    simp [genStep, statusOfGen, problemOf, contribOf, hr, readingOk] at h ⊢
  split_ifs <;> simp_all

theorem genStep_none_of (m : MetricInput) (h : readingOk m.reading = false)
    (cur : Option Status) : genStep m cur = none := by
  cases hr : m.reading <;> simp [genStep, hr, readingOk] at h ⊢

theorem illStep_eq (m : MetricInput) (cur : Option Status)
    (h : readingOk m.reading = true) :
    illStep m cur = some (illStatusOf m cur, illProblemOf m, contribOf m) := by
  cases hr : m.reading <;>
    simp [illStep, illStatusOf, illProblemOf, contribOf, hr, readingOk] at h ⊢
  split_ifs <;> simp_all

theorem illStep_none_of (m : MetricInput) (h : readingOk m.reading = false)
    (cur : Option Status) : illStep m cur = none := by
  cases hr : m.reading <;> simp [illStep, hr, readingOk] at h ⊢

theorem dliStep_eq (i : Inputs) (cur : Option Status)
    (h : dliOk i = true) :
    dliStep i cur = some (dliStatusOf i cur, dliProblemOf i, dliContribOf i) := by
  unfold dliOk at h
  unfold dliStep dliStatusOf dliProblemOf dliContribOf
  cases hk : i.dliKnown <;> simp [hk] at h ⊢
  cases hl : i.dliLastPeriod <;> simp [hl] at h ⊢
  split_ifs <;> simp_all

theorem dliStep_none_of (i : Inputs) (h : dliOk i = false)
    (cur : Option Status) : dliStep i cur = none := by
  unfold dliOk at h
  unfold dliStep
  cases hk : i.dliKnown <;> simp [hk] at h ⊢
  cases hl : i.dliLastPeriod <;> simp [hl] at h ⊢

/-- A status field already holding a value keeps holding one across a
general-metric block. -/
theorem statusOfGen_ne_none (m : MetricInput) (cur : Option Status)
    (h : cur ≠ none) : statusOfGen m cur ≠ none := by
  cases hr : m.reading <;> simp [statusOfGen, hr, h]
  split_ifs <;> simp

theorem illStatusOf_ne_none (m : MetricInput) (cur : Option Status)
    (h : cur ≠ none) : illStatusOf m cur ≠ none := by
  cases hr : m.reading <;> simp [illStatusOf, hr, h]
  split_ifs <;> simp

theorem dliStatusOf_ne_none (i : Inputs) (cur : Option Status)
    (h : cur ≠ none) : dliStatusOf i cur ≠ none := by
  unfold dliStatusOf
  cases hk : i.dliKnown <;> simp [hk, h]
  cases hl : i.dliLastPeriod <;> simp [hl, h]
  split_ifs <;> simp

theorem statusesPreserved_refl (s : PlantState) : statusesPreserved s s :=
  ⟨fun h => h, fun h => h, fun h => h, fun h => h, fun h => h, fun h => h⟩

/-! ## Master characterization of `update` -/

/-- Dichotomy for one `update` pass: on a clean snapshot the pass
computes `finalState`; on a snapshot with an unparseable value the pass
aborts with an exception, leaving `_attr_state` untouched and never
reverting an assigned status field to `None`. -/
theorem update_main (i : Inputs) (s : PlantState) :
    (updateSucceeds i = true ∧ update i s = .ok (finalState i s)) ∨
    (updateSucceeds i = false ∧
      ∃ sp, update i s = .error sp ∧ sp.attr_state = s.attr_state ∧
        statusesPreserved s sp) := by
  cases hm : readingOk i.moisture.reading with
  | false =>
    right
    refine ⟨by simp [updateSucceeds, hm], s,
      by simp [update, genStep_none_of i.moisture hm], rfl,
      statusesPreserved_refl s⟩
  | true =>
  cases hc : readingOk i.conductivity.reading with
  | false =>
    right
    refine ⟨by simp [updateSucceeds, hc],
      { s with moisture_status := statusOfGen i.moisture s.moisture_status },
      by simp [update, genStep_eq i.moisture s.moisture_status hm,
        genStep_none_of i.conductivity hc], rfl,
      ⟨fun h => statusOfGen_ne_none _ _ h, fun h => h, fun h => h,
        fun h => h, fun h => h, fun h => h⟩⟩
  | true =>
  cases ht : readingOk i.temperature.reading with
  | false =>
    right
    refine ⟨by simp [updateSucceeds, ht],
      { s with moisture_status := statusOfGen i.moisture s.moisture_status,
               conductivity_status :=
                 statusOfGen i.conductivity s.conductivity_status },
      by simp [update, genStep_eq i.moisture s.moisture_status hm,
        genStep_eq i.conductivity s.conductivity_status hc,
        genStep_none_of i.temperature ht], rfl,
      ⟨fun h => statusOfGen_ne_none _ _ h, fun h => statusOfGen_ne_none _ _ h,
        fun h => h, fun h => h, fun h => h, fun h => h⟩⟩
  | true =>
  cases hh : readingOk i.humidity.reading with
  | false =>
    right
    refine ⟨by simp [updateSucceeds, hh],
      { s with moisture_status := statusOfGen i.moisture s.moisture_status,
               conductivity_status :=
                 statusOfGen i.conductivity s.conductivity_status,
               temperature_status :=
                 statusOfGen i.temperature s.temperature_status },
      by simp [update, genStep_eq i.moisture s.moisture_status hm,
        genStep_eq i.conductivity s.conductivity_status hc,
        genStep_eq i.temperature s.temperature_status ht,
        genStep_none_of i.humidity hh], rfl,
      ⟨fun h => statusOfGen_ne_none _ _ h, fun h => statusOfGen_ne_none _ _ h,
        fun h => statusOfGen_ne_none _ _ h, fun h => h, fun h => h,
        fun h => h⟩⟩
  | true =>
  cases hi : readingOk i.illuminance.reading with
  | false =>
    right
    refine ⟨by simp [updateSucceeds, hi],
      { s with moisture_status := statusOfGen i.moisture s.moisture_status,
               conductivity_status :=
                 statusOfGen i.conductivity s.conductivity_status,
               temperature_status :=
                 statusOfGen i.temperature s.temperature_status,
               humidity_status := statusOfGen i.humidity s.humidity_status },
      by simp [update, genStep_eq i.moisture s.moisture_status hm,
        genStep_eq i.conductivity s.conductivity_status hc,
        genStep_eq i.temperature s.temperature_status ht,
        genStep_eq i.humidity s.humidity_status hh,
        illStep_none_of i.illuminance hi], rfl,
      ⟨fun h => statusOfGen_ne_none _ _ h, fun h => statusOfGen_ne_none _ _ h,
        fun h => statusOfGen_ne_none _ _ h, fun h => statusOfGen_ne_none _ _ h,
        fun h => h, fun h => h⟩⟩
  | true =>
  cases hd : dliOk i with
  | false =>
    right
    refine ⟨by simp [updateSucceeds, hd],
      { s with moisture_status := statusOfGen i.moisture s.moisture_status,
               conductivity_status :=
                 statusOfGen i.conductivity s.conductivity_status,
               temperature_status :=
                 statusOfGen i.temperature s.temperature_status,
               humidity_status := statusOfGen i.humidity s.humidity_status,
               illuminance_status :=
                 illStatusOf i.illuminance s.illuminance_status },
      by simp [update, genStep_eq i.moisture s.moisture_status hm,
        genStep_eq i.conductivity s.conductivity_status hc,
        genStep_eq i.temperature s.temperature_status ht,
        genStep_eq i.humidity s.humidity_status hh,
        illStep_eq i.illuminance s.illuminance_status hi,
        dliStep_none_of i hd], rfl,
      ⟨fun h => statusOfGen_ne_none _ _ h, fun h => statusOfGen_ne_none _ _ h,
        fun h => statusOfGen_ne_none _ _ h, fun h => statusOfGen_ne_none _ _ h,
        fun h => illStatusOf_ne_none _ _ h, fun h => h⟩⟩
  | true =>
    left
    refine ⟨by simp [updateSucceeds, hm, hc, ht, hh, hi, hd], ?_⟩
    simp only [update, genStep_eq i.moisture s.moisture_status hm]
    simp only [genStep_eq i.conductivity _ hc, genStep_eq i.temperature _ ht,
      genStep_eq i.humidity _ hh, illStep_eq i.illuminance _ hi,
      dliStep_eq i _ hd]
    simp [finalState, aggOf, knownOf, newStateOf]

/-! ## Corollaries of the master characterization -/

theorem update_ok_elim (i : Inputs) (s s' : PlantState)
    (h : update i s = .ok s') :
    s' = finalState i s ∧ updateSucceeds i = true := by
  rcases update_main i s with ⟨hs, he⟩ | ⟨hs, sp, he, ha, hp⟩
  · rw [he] at h
    exact ⟨(Except.ok.inj h).symm, hs⟩
  · rw [he] at h
    exact absurd h (by simp)

theorem newStateOf_eq (i : Inputs) :
    newStateOf i = (if probAnyOf i then .problem else .ok) := by
  unfold newStateOf probAnyOf
  cases problemOf i.moisture <;> cases problemOf i.conductivity <;>
    cases problemOf i.temperature <;> cases problemOf i.humidity <;>
    cases illProblemOf i.illuminance <;> cases dliProblemOf i <;> simp

theorem finalState_attr (i : Inputs) (s : PlantState) :
    (finalState i s).attr_state =
      some (if knownOf i then (if probAnyOf i then .problem else .ok)
        else .unknown) := by
  simp [finalState, aggOf, newStateOf_eq]

theorem statusOfGen_idem (m : MetricInput) (cur : Option Status) :
    statusOfGen m (statusOfGen m cur) = statusOfGen m cur := by
  cases hr : m.reading <;> simp [statusOfGen, hr]

theorem illStatusOf_idem (m : MetricInput) (cur : Option Status) :
    illStatusOf m (illStatusOf m cur) = illStatusOf m cur := by
  cases hr : m.reading <;> simp [illStatusOf, hr]

theorem dliStatusOf_idem (i : Inputs) (cur : Option Status) :
    dliStatusOf i (dliStatusOf i cur) = dliStatusOf i cur := by
  unfold dliStatusOf
  cases hk : i.dliKnown <;> simp [hk]
  cases hl : i.dliLastPeriod <;> simp [hl]

theorem finalState_idem (i : Inputs) (s : PlantState) :
    finalState i (finalState i s) = finalState i s := by
  simp [finalState, statusOfGen_idem, illStatusOf_idem, dliStatusOf_idem]

theorem finalState_preserves (i : Inputs) (s : PlantState) :
    statusesPreserved s (finalState i s) :=
  ⟨fun h => statusOfGen_ne_none _ _ h, fun h => statusOfGen_ne_none _ _ h,
   fun h => statusOfGen_ne_none _ _ h, fun h => statusOfGen_ne_none _ _ h,
   fun h => illStatusOf_ne_none _ _ h, fun h => dliStatusOf_ne_none _ _ h⟩

theorem classifiesGen_statusOfGen (m : MetricInput) (cur : Option Status)
    (hmx : m.minT ≤ m.maxT) : classifiesGen m (statusOfGen m cur) := by
  intro v hv
  refine ⟨fun hlt => by simp [statusOfGen, hv, hlt], fun hgt => ?_,
    fun hge hle => ?_⟩
  · have h1 : ¬ v < m.minT := by linarith
    simp [statusOfGen, hv, h1, hgt]
  · have h1 : ¬ v < m.minT := by linarith
    have h2 : ¬ m.maxT < v := by linarith
    simp [statusOfGen, hv, h1, h2]

/-- A general-metric block that saw a value breaching its bounds leaves
`low` or `high` in the status field, whatever the trigger flag. -/
theorem statusOfGen_breach (m : MetricInput) (cur : Option Status) (v : ℚ)
    (hv : m.reading = .val v) (hbr : v < m.minT ∨ m.maxT < v) :
    statusOfGen m cur = some .low ∨ statusOfGen m cur = some .high := by
  simp only [statusOfGen, hv]
  split_ifs with h1 h2
  · exact Or.inl rfl
  · exact Or.inr rfl
  · rcases hbr with hb | hb
    · exact absurd hb h1
    · exact absurd hb h2

/-! ## Except plumbing for the websocket surface -/

theorem exceptBind_error {α β γ : Type} (e : α) (f : β → Except α γ) :
    ((Except.error e : Except α β) >>= f) = Except.error e := rfl

theorem exceptBind_ok {α β γ : Type} (b : β) (f : β → Except α γ) :
    ((Except.ok b : Except α β) >>= f) = f b := rfl

theorem req_bind_ne_ok_none {α β : Type} (o : Option α)
    (f : α → Except Unit (Option β)) (hf : ∀ a, f a ≠ .ok none) :
    (req o >>= f) ≠ .ok none := by
  cases o with
  | none => simp [req, exceptBind_error]
  | some a => simpa [req, exceptBind_ok] using hf a

/-! ## Claim theorems -/

/-- C3: for each general metric (moisture, temperature, conductivity,
humidity) whose current value is a present numeric `v`, a completed
`update` pass sets its status to `low` when `v < min`, `high` when
`v > max`, and `ok` when `min ≤ v ≤ max` (thresholds read in their
configured order `min ≤ max`). -/
theorem C3_general_metric_classification (i : Inputs) (s s' : PlantState)
    (h : update i s = .ok s')
    (hmm : i.moisture.minT ≤ i.moisture.maxT)
    (hcc : i.conductivity.minT ≤ i.conductivity.maxT)
    (htt : i.temperature.minT ≤ i.temperature.maxT)
    (hhh : i.humidity.minT ≤ i.humidity.maxT) :
    classifiesGen i.moisture s'.moisture_status ∧
    classifiesGen i.conductivity s'.conductivity_status ∧
    classifiesGen i.temperature s'.temperature_status ∧
    classifiesGen i.humidity s'.humidity_status := by
  obtain ⟨hfs, -⟩ := update_ok_elim i s s' h
  subst hfs
  exact ⟨classifiesGen_statusOfGen _ _ hmm, classifiesGen_statusOfGen _ _ hcc,
    classifiesGen_statusOfGen _ _ htt, classifiesGen_statusOfGen _ _ hhh⟩

theorem C3_general_metric_classification_witness :
    classifiesGen iW3.moisture (finalState iW3 initState).moisture_status ∧
    classifiesGen iW3.conductivity
      (finalState iW3 initState).conductivity_status ∧
    classifiesGen iW3.temperature
      (finalState iW3 initState).temperature_status ∧
    classifiesGen iW3.humidity (finalState iW3 initState).humidity_status :=
  C3_general_metric_classification iW3 initState (finalState iW3 initState)
    rfl (by norm_num [iW3]) (by norm_num [iW3, absentIn])
    (by norm_num [iW3, absentIn]) (by norm_num [iW3, absentIn])

/-- C4: for a present numeric illuminance value, a completed `update`
pass sets the illuminance status to `high` when the value exceeds the max
threshold and to `ok` otherwise; no pass ever writes `low` into the
illuminance status. -/
theorem C4_illuminance_never_low (i : Inputs) (s s' : PlantState)
    (h : update i s = .ok s') :
    (∀ v, i.illuminance.reading = .val v →
      (i.illuminance.maxT < v → s'.illuminance_status = some .high) ∧
      (v ≤ i.illuminance.maxT → s'.illuminance_status = some .ok)) ∧
    (s.illuminance_status ≠ some .low → s'.illuminance_status ≠ some .low) := by
  obtain ⟨hfs, -⟩ := update_ok_elim i s s' h
  subst hfs
  constructor
  · intro v hv
    refine ⟨fun hgt => by simp [finalState, illStatusOf, hv, hgt],
      fun hle => ?_⟩
    have h2 : ¬ i.illuminance.maxT < v := by linarith
    simp [finalState, illStatusOf, hv, h2]
  · intro hcur
    show illStatusOf i.illuminance s.illuminance_status ≠ some .low
    cases hr : i.illuminance.reading <;> simp [illStatusOf, hr, hcur]
    split_ifs <;> simp

theorem C4_illuminance_never_low_witness :
    (∀ v, iW4.illuminance.reading = .val v →
      (iW4.illuminance.maxT < v →
        (finalState iW4 initState).illuminance_status = some .high) ∧
      (v ≤ iW4.illuminance.maxT →
        (finalState iW4 initState).illuminance_status = some .ok)) ∧
    (initState.illuminance_status ≠ some .low →
      (finalState iW4 initState).illuminance_status ≠ some .low) :=
  C4_illuminance_never_low iW4 initState (finalState iW4 initState) rfl

/-- C5: a metric whose current value is absent, unknown or unavailable at
evaluation time keeps its previous status through a completed `update`
pass and contributes nothing to `known_state`; in particular a pass in
which every metric is absent publishes `unknown`. -/
theorem C5_absent_keeps_status (i : Inputs) (s s' : PlantState)
    (h : update i s = .ok s') :
    (i.moisture.reading = .missing →
      s'.moisture_status = s.moisture_status ∧ contribOf i.moisture = false) ∧
    (i.conductivity.reading = .missing →
      s'.conductivity_status = s.conductivity_status ∧
        contribOf i.conductivity = false) ∧
    (i.temperature.reading = .missing →
      s'.temperature_status = s.temperature_status ∧
        contribOf i.temperature = false) ∧
    (i.humidity.reading = .missing →
      s'.humidity_status = s.humidity_status ∧
        contribOf i.humidity = false) ∧
    (i.illuminance.reading = .missing →
      s'.illuminance_status = s.illuminance_status ∧
        contribOf i.illuminance = false) ∧
    (i.dliKnown = false →
      s'.dli_status = s.dli_status ∧ dliContribOf i = false) ∧
    (i.moisture.reading = .missing → i.conductivity.reading = .missing →
      i.temperature.reading = .missing → i.humidity.reading = .missing →
      i.illuminance.reading = .missing → i.dliKnown = false →
      s'.attr_state = some .unknown) := by
  obtain ⟨hfs, -⟩ := update_ok_elim i s s' h
  subst hfs
  refine ⟨fun hm => ⟨by simp [finalState, statusOfGen, hm],
      by simp [contribOf, hm]⟩,
    fun hc => ⟨by simp [finalState, statusOfGen, hc], by simp [contribOf, hc]⟩,
    fun ht => ⟨by simp [finalState, statusOfGen, ht], by simp [contribOf, ht]⟩,
    fun hh => ⟨by simp [finalState, statusOfGen, hh], by simp [contribOf, hh]⟩,
    fun hi => ⟨by simp [finalState, illStatusOf, hi], by simp [contribOf, hi]⟩,
    fun hd => ⟨by simp [finalState, dliStatusOf, hd],
      by simp [dliContribOf, hd]⟩,
    fun hm hc ht hh hi hd => ?_⟩
  rw [finalState_attr]
  simp [knownOf, contribOf, dliContribOf, hm, hc, ht, hh, hi, hd]

theorem C5_absent_keeps_status_witness :
    (iW5.moisture.reading = .missing →
      (finalState iW5 sC8).moisture_status = sC8.moisture_status ∧
        contribOf iW5.moisture = false) ∧
    (iW5.conductivity.reading = .missing →
      (finalState iW5 sC8).conductivity_status = sC8.conductivity_status ∧
        contribOf iW5.conductivity = false) ∧
    (iW5.temperature.reading = .missing →
      (finalState iW5 sC8).temperature_status = sC8.temperature_status ∧
        contribOf iW5.temperature = false) ∧
    (iW5.humidity.reading = .missing →
      (finalState iW5 sC8).humidity_status = sC8.humidity_status ∧
        contribOf iW5.humidity = false) ∧
    (iW5.illuminance.reading = .missing →
      (finalState iW5 sC8).illuminance_status = sC8.illuminance_status ∧
        contribOf iW5.illuminance = false) ∧
    (iW5.dliKnown = false →
      (finalState iW5 sC8).dli_status = sC8.dli_status ∧
        dliContribOf iW5 = false) ∧
    (iW5.moisture.reading = .missing → iW5.conductivity.reading = .missing →
      iW5.temperature.reading = .missing → iW5.humidity.reading = .missing →
      iW5.illuminance.reading = .missing → iW5.dliKnown = false →
      (finalState iW5 sC8).attr_state = some .unknown) :=
  C5_absent_keeps_status iW5 sC8 (finalState iW5 sC8) rfl

/-- C6: for every metric — moisture, conductivity, temperature, humidity,
illuminance and DLI — a value breaching that metric's bounds while its
trigger-enabled flag is false still gets its `low`/`high` status recorded
by a completed pass; and when no metric raised a trigger-enabled breach
this pass, the aggregate is never published as `problem` — it is `ok`
whenever some metric contributed (scenario B: moisture 15, min 20,
max 60, trigger off, all else absent → moisture `low`, aggregate `ok`). -/
theorem C6_disabled_trigger_not_problem (i : Inputs) (s s' : PlantState)
    (h : update i s = .ok s') :
    (∀ v, i.moisture.reading = .val v → i.moisture.trigger = false →
      (v < i.moisture.minT ∨ i.moisture.maxT < v) →
      s'.moisture_status = some .low ∨ s'.moisture_status = some .high) ∧
    (∀ v, i.conductivity.reading = .val v → i.conductivity.trigger = false →
      (v < i.conductivity.minT ∨ i.conductivity.maxT < v) →
      s'.conductivity_status = some .low ∨
        s'.conductivity_status = some .high) ∧
    (∀ v, i.temperature.reading = .val v → i.temperature.trigger = false →
      (v < i.temperature.minT ∨ i.temperature.maxT < v) →
      s'.temperature_status = some .low ∨
        s'.temperature_status = some .high) ∧
    (∀ v, i.humidity.reading = .val v → i.humidity.trigger = false →
      (v < i.humidity.minT ∨ i.humidity.maxT < v) →
      s'.humidity_status = some .low ∨ s'.humidity_status = some .high) ∧
    (∀ v, i.illuminance.reading = .val v → i.illuminance.trigger = false →
      i.illuminance.maxT < v → s'.illuminance_status = some .high) ∧
    (∀ lp, i.dliKnown = true → i.dliLastPeriod = .val lp →
      i.dliTrigger = false → 0 < lp → (lp < i.dliMin ∨ i.dliMax < lp) →
      s'.dli_status = some .low ∨ s'.dli_status = some .high) ∧
    (probAnyOf i = false → s'.attr_state ≠ some .problem) ∧
    (probAnyOf i = false → knownOf i = true → s'.attr_state = some .ok) := by
  obtain ⟨hfs, -⟩ := update_ok_elim i s s' h
  subst hfs
  refine ⟨fun v hv _ hbr =>
      statusOfGen_breach i.moisture s.moisture_status v hv hbr,
    fun v hv _ hbr =>
      statusOfGen_breach i.conductivity s.conductivity_status v hv hbr,
    fun v hv _ hbr =>
      statusOfGen_breach i.temperature s.temperature_status v hv hbr,
    fun v hv _ hbr =>
      statusOfGen_breach i.humidity s.humidity_status v hv hbr,
    fun v hv _ hgt => by simp [finalState, illStatusOf, hv, hgt],
    fun lp hk hl _ h0 hbr => ?_, fun hp => ?_, fun hp hk2 => ?_⟩
  · show dliStatusOf i s.dli_status = some .low ∨
      dliStatusOf i s.dli_status = some .high
    simp only [dliStatusOf, hk, if_true, hl]
    split_ifs with h1 h2
    · exact Or.inl rfl
    · exact Or.inr rfl
    · rcases hbr with hb | hb
      · exact absurd ⟨h0, hb⟩ h1
      · exact absurd ⟨h0, hb⟩ h2
  · rw [finalState_attr]
    cases hk2 : knownOf i <;> simp [hp, hk2]
  · rw [finalState_attr]
    simp [hp, hk2]

theorem C6_disabled_trigger_not_problem_witness :
    ((∀ v, iW6.moisture.reading = .val v → iW6.moisture.trigger = false →
      (v < iW6.moisture.minT ∨ iW6.moisture.maxT < v) →
      (finalState iW6 initState).moisture_status = some .low ∨
        (finalState iW6 initState).moisture_status = some .high) ∧
    (∀ v, iW6.conductivity.reading = .val v →
      iW6.conductivity.trigger = false →
      (v < iW6.conductivity.minT ∨ iW6.conductivity.maxT < v) →
      (finalState iW6 initState).conductivity_status = some .low ∨
        (finalState iW6 initState).conductivity_status = some .high) ∧
    (∀ v, iW6.temperature.reading = .val v →
      iW6.temperature.trigger = false →
      (v < iW6.temperature.minT ∨ iW6.temperature.maxT < v) →
      (finalState iW6 initState).temperature_status = some .low ∨
        (finalState iW6 initState).temperature_status = some .high) ∧
    (∀ v, iW6.humidity.reading = .val v → iW6.humidity.trigger = false →
      (v < iW6.humidity.minT ∨ iW6.humidity.maxT < v) →
      (finalState iW6 initState).humidity_status = some .low ∨
        (finalState iW6 initState).humidity_status = some .high) ∧
    (∀ v, iW6.illuminance.reading = .val v →
      iW6.illuminance.trigger = false → iW6.illuminance.maxT < v →
      (finalState iW6 initState).illuminance_status = some .high) ∧
    (∀ lp, iW6.dliKnown = true → iW6.dliLastPeriod = .val lp →
      iW6.dliTrigger = false → 0 < lp → (lp < iW6.dliMin ∨ iW6.dliMax < lp) →
      (finalState iW6 initState).dli_status = some .low ∨
        (finalState iW6 initState).dli_status = some .high) ∧
    (probAnyOf iW6 = false →
      (finalState iW6 initState).attr_state ≠ some .problem) ∧
    (probAnyOf iW6 = false → knownOf iW6 = true →
      (finalState iW6 initState).attr_state = some .ok)) :=
  C6_disabled_trigger_not_problem iW6 initState (finalState iW6 initState) rfl

/-- C9: `update` is deterministic (it is a function of the snapshot and
prior state) and idempotent: re-running a completed pass on the same
snapshot from the state it produced succeeds again and reproduces the
same per-metric statuses and the same published aggregate state. -/
theorem C9_update_idempotent (i : Inputs) (s s' : PlantState)
    (h : update i s = .ok s') :
    update i s' = .ok s' := by
  obtain ⟨hfs, hS⟩ := update_ok_elim i s s' h
  subst hfs
  rcases update_main i (finalState i s) with ⟨-, he⟩ | ⟨hf, -⟩
  · rw [he, finalState_idem]
  · rw [hS] at hf
    cases hf

theorem C9_update_idempotent_witness :
    update iW3 (finalState iW3 initState) = .ok (finalState iW3 initState) :=
  C9_update_idempotent iW3 initState (finalState iW3 initState) rfl

/-- C1 counterexample: with a trigger-enabled moisture status `low`
retained from an earlier pass, moisture now absent, and a known in-range
temperature reading, the pass publishes `ok` — not `problem` as the claim
(statuses "including those retained from earlier passes") requires. -/
theorem C1_counterexample :
    update iC1 sC1 = .ok (finalState iC1 sC1) ∧
    (finalState iC1 sC1).moisture_status = some .low ∧
    iC1.moisture.trigger = true ∧
    (finalState iC1 sC1).attr_state = some .ok ∧
    (finalState iC1 sC1).attr_state ≠ some .problem :=
  ⟨rfl, rfl, rfl, rfl, by decide⟩

/-- C1 (amended): at the end of a completed pass the aggregate is
`unknown` iff no metric contributed a known reading during that pass;
otherwise it is `problem` iff at least one metric whose trigger-enabled
flag is true was classified `low` or `high` from this pass's readings
(statuses retained from earlier passes do not drive the aggregate), and
`ok` otherwise. -/
theorem C1_amended_aggregate_rule (i : Inputs) (s s' : PlantState)
    (h : update i s = .ok s') :
    (s'.attr_state = some .unknown ↔ knownOf i = false) ∧
    (knownOf i = true →
      (s'.attr_state = some .problem ↔ probAnyOf i = true)) ∧
    (knownOf i = true → probAnyOf i = false → s'.attr_state = some .ok) := by
  obtain ⟨hfs, -⟩ := update_ok_elim i s s' h
  subst hfs
  rw [finalState_attr]
  cases hk : knownOf i <;> cases hp : probAnyOf i <;> simp

theorem C1_amended_aggregate_rule_witness :
    ((finalState iC1 sC1).attr_state = some .unknown ↔ knownOf iC1 = false) ∧
    (knownOf iC1 = true →
      ((finalState iC1 sC1).attr_state = some .problem ↔
        probAnyOf iC1 = true)) ∧
    (knownOf iC1 = true → probAnyOf iC1 = false →
      (finalState iC1 sC1).attr_state = some .ok) :=
  C1_amended_aggregate_rule iC1 sC1 (finalState iC1 sC1) rfl

/-- C2 counterexample: with `last_period = 0` (min 2, max 30), a known
DLI entity value, and every other metric absent, the claim demands that
DLI contribute nothing to `known_state` — the aggregate would then be
`unknown` — but the pass sets `known_state` from the DLI guard alone,
records `dli_status = ok`, and publishes `ok`. -/
theorem C2_counterexample :
    update iC2 initState = .ok (finalState iC2 initState) ∧
    (finalState iC2 initState).dli_status = some .ok ∧
    (finalState iC2 initState).attr_state = some .ok ∧
    (finalState iC2 initState).attr_state ≠ some .unknown :=
  ⟨rfl, rfl, rfl, by decide⟩

/-- C2 (amended): when the DLI entity's own value is unknown,
unavailable or absent, the DLI block is skipped (status unchanged, no
`known_state` contribution); when it is known, DLI contributes to
`known_state` regardless of the accumulated last-period value, and with
last-period value `lp` its status becomes `low` when `0 < lp < min`,
`high` when `lp > 0` and `lp > max`, and `ok` otherwise — including when
`lp ≤ 0`. -/
theorem C2_amended_dli_rule (i : Inputs) (s s' : PlantState)
    (h : update i s = .ok s') :
    (i.dliKnown = false →
      s'.dli_status = s.dli_status ∧ dliContribOf i = false) ∧
    (i.dliKnown = true → dliContribOf i = true ∧
      ∀ lp, i.dliLastPeriod = .val lp →
        s'.dli_status =
          some (if 0 < lp ∧ lp < i.dliMin then .low
            else if 0 < lp ∧ i.dliMax < lp then .high else .ok)) := by
  obtain ⟨hfs, -⟩ := update_ok_elim i s s' h
  subst hfs
  refine ⟨fun hk => ⟨by simp [finalState, dliStatusOf, hk],
      by simp [dliContribOf, hk]⟩,
    fun hk => ⟨by simp [dliContribOf, hk], fun lp hl => ?_⟩⟩
  simp only [finalState, dliStatusOf, hk, if_true, hl]
  split_ifs <;> rfl

theorem C2_amended_dli_rule_witness :
    (iC2.dliKnown = false →
      (finalState iC2 initState).dli_status = initState.dli_status ∧
        dliContribOf iC2 = false) ∧
    (iC2.dliKnown = true → dliContribOf iC2 = true ∧
      ∀ lp, iC2.dliLastPeriod = .val lp →
        (finalState iC2 initState).dli_status =
          some (if 0 < lp ∧ lp < iC2.dliMin then .low
            else if 0 < lp ∧ iC2.dliMax < lp then .high else .ok)) :=
  C2_amended_dli_rule iC2 initState (finalState iC2 initState) rfl

/-- C8 counterexample: moisture `15` breaches `min = 20` and rewrites
`moisture_status` from `ok` to `low`; the malformed conductivity value
then raises, so the pass aborts — yet the previously published
`moisture_status` has already been changed, contrary to the claim that a
failed evaluation leaves every per-metric status unchanged. -/
theorem C8_counterexample :
    update iC8 sC8 = .error spC8 ∧
    sC8.moisture_status = some .ok ∧
    spC8.moisture_status = some .low :=
  ⟨rfl, rfl, rfl⟩

/-- C8 (amended): a present-but-unparseable value makes `update` raise to
its caller (the defect is not swallowed), and such a failed pass never
publishes an aggregate (`_attr_state` is untouched) and never resets an
assigned per-metric status to unset — but statuses of metrics processed
before the failing one may already have been rewritten. -/
theorem C8_amended_malformed_raises (i : Inputs) (s : PlantState)
    (h : updateSucceeds i = false) :
    ∃ sp, update i s = .error sp ∧ sp.attr_state = s.attr_state ∧
      statusesPreserved s sp := by
  rcases update_main i s with ⟨hs, -⟩ | ⟨-, sp, he, ha, hp⟩
  · rw [h] at hs
    cases hs
  · exact ⟨sp, he, ha, hp⟩

theorem C8_amended_malformed_raises_witness :
    ∃ sp, update iC8 sC8 = .error sp ∧ sp.attr_state = sC8.attr_state ∧
      statusesPreserved sC8 sp :=
  C8_amended_malformed_raises iC8 sC8 (by decide)

/-- C7 counterexample: calling `add_dli` alone on a fresh device — with
every threshold slot still unattached — already sets `plant_complete`,
after which `extra_state_attributes` returns a non-empty dict and
`websocket_info` raises instead of returning an empty result; so the
surfaces do not stay empty "until every required threshold entity and
the DLI-derived sensor have been attached". -/
theorem C7_counterexample :
    dC7.thresholds = initThresholds ∧
    dC7.plantComplete = true ∧
    extra_state_attributes dC7 ≠ none ∧
    websocket_info dC7 = .error () := by
  refine ⟨rfl, rfl, ?_, rfl⟩
  simp [extra_state_attributes, dC7, applyOp, initDevice]

/-- C7 (amended): both query surfaces return an empty result exactly
while `plant_complete` is false; completeness is latched by `add_dli`
alone (threshold attachment is not checked), and the latch is one-way —
no operation ever clears it. -/
theorem C7_amended_latch (d : Device) (op : Op) :
    (d.plantComplete = false →
      extra_state_attributes d = none ∧ websocket_info d = .ok none) ∧
    (d.plantComplete = true →
      extra_state_attributes d ≠ none ∧ websocket_info d ≠ .ok none) ∧
    (d.plantComplete = true → (applyOp op d).plantComplete = true) ∧
    (∀ e, (applyOp (.addDli e) d).plantComplete = true) := by
  refine ⟨fun hc => ⟨by simp [extra_state_attributes, hc],
      by simp [websocket_info, hc]⟩,
    fun hc => ⟨by simp [extra_state_attributes, hc], ?_⟩,
    fun hc => by cases op <;> simp [applyOp, hc],
    fun e => by simp [applyOp]⟩
  simp only [websocket_info, hc, if_true]
  iterate 18 refine req_bind_ne_ok_none _ _ fun _ => ?_
  simp [pure, Except.pure]

theorem C7_amended_latch_witness :
    ((initDevice.plantComplete = false →
      extra_state_attributes initDevice = none ∧
        websocket_info initDevice = .ok none) ∧
    (initDevice.plantComplete = true →
      extra_state_attributes initDevice ≠ none ∧
        websocket_info initDevice ≠ .ok none) ∧
    (initDevice.plantComplete = true →
      (applyOp .addCalculations initDevice).plantComplete = true) ∧
    (∀ e, (applyOp (.addDli e) initDevice).plantComplete = true)) :=
  C7_amended_latch initDevice .addCalculations

/-- C10: per-metric statuses are sticky — no operation on the device
(neither a later `update`, completed or aborted, nor any `add_*` call)
ever resets a status field that holds `ok`/`low`/`high` back to its
initial unset value — while every completed `update` still reassigns the
aggregate state to exactly one of `ok`/`problem`/`unknown`. -/
theorem C10_status_sticky (d : Device) (op : Op) :
    statusesPreserved d.st (applyOp op d).st ∧
    (∀ i s s', update i s = .ok s' → s'.attr_state ≠ none) := by
  constructor
  · cases op with
    | runUpdate i =>
      show statusesPreserved d.st
        (match update i d.st with
         | .ok s' => s'
         | .error sp => sp)
      rcases update_main i d.st with ⟨-, he⟩ | ⟨-, sp, he, -, hp⟩
      · rw [he]
        exact finalState_preserves i d.st
      · rw [he]
        exact hp
    | addImage u => exact statusesPreserved_refl d.st
    | addSpecies sp => exact statusesPreserved_refl d.st
    | addThresholds t => exact statusesPreserved_refl d.st
    | addSensors sn => exact statusesPreserved_refl d.st
    | addDli e => exact statusesPreserved_refl d.st
    | addCalculations => exact statusesPreserved_refl d.st
  · intro i s s' h
    obtain ⟨hfs, -⟩ := update_ok_elim i s s' h
    subst hfs
    simp [finalState]

theorem C10_status_sticky_witness :
    statusesPreserved dC7.st
      (applyOp (.addSpecies (some "monstera")) dC7).st ∧
    (∀ i s s', update i s = .ok s' → s'.attr_state ≠ none) :=
  C10_status_sticky dC7 (.addSpecies (some "monstera"))

end Plant
